import Mathlib

/-!
Verification development for the Simple_Speak repository (tts.py and main.py).

The program wraps an external TTS engine.  All calls into the external world
(file-existence tests, directory creation, speaker cloning, built-in speaker
loading, audio generation, saving, playback) are modelled by an explicit
environment record of oracles; a call that the Python code would observe as a
raised exception is modelled by the oracle returning `none` / `false`, since
every such call site in the source wraps the call in `try/except`.

Functions additionally return a trace of the engine calls they made, so that
statements of the form "create_speaker is called exactly once" are about the
returned trace.
-/

namespace SimpleSpeak

/-- Opaque handle for a speaker profile produced by the external engine
(`interface.create_speaker` or `interface.load_default_speaker`). -/
structure Speaker where
  token : Nat
deriving DecidableEq, Repr

/-- Python truthiness of an optional string (`if speaker_id:` in tts.py is
false both for `None` and for the empty string). -/
def pyTruthy : Option String → Bool
  | none => false
  | some s => s != ""

/-- Posix `os.path.dirname` for the relative paths this program uses:
everything before the final slash, `""` when there is no slash. -/
def dirname (s : String) : String :=
  match (s.data.reverse).dropWhile (fun c => c ≠ '/') with
  | [] => ""
  | _ :: rest => String.mk rest.reverse

/-- Posix `os.path.basename`: everything after the final slash. -/
def basename (s : String) : String :=
  String.mk ((s.data.reverse).takeWhile (fun c => c ≠ '/')).reverse

/-- Python `str.lower()` for the ASCII inputs compared against the exit
keywords. -/
def pyLower (s : String) : String :=
  String.mk (s.data.map Char.toLower)

/-- Oracles for the external world seen by `TTSHandler.speak` (tts.py).
`none`/`false` answers model the corresponding Python call raising. -/
structure Env where
  fileExists : String → Bool
  makedirsOk : String → Bool
  createSpeaker : String → Option Speaker
  loadDefaultSpeaker : String → Option Speaker
  generateOk : String → Speaker → Bool
  saveOk : String → Bool

/-- State of a `TTSHandler` after `__init__` (tts.py lines 25-67):
`interface` is `true` iff construction of the outetts interface succeeded,
and `sampler_config` is set iff the interface is set. -/
structure TTSHandler where
  interface : Bool
  sampler_config : Bool
deriving DecidableEq, Repr

/-- Class attribute `TTSHandler.DEFAULT_VOICE` (tts.py line 22). -/
def TTSHandler.DEFAULT_VOICE : String := "EN-FEMALE-1-NEUTRAL"

/-- `TTSHandler.__init__`: on construction failure `interface` is `None`,
and `sampler_config` is set only if the interface initialized. -/
def TTSHandler.init (initOk : Bool) : TTSHandler :=
  { interface := initOk, sampler_config := initOk }

/-- Result of the speaker-resolution block of `speak` (tts.py lines 119-164),
with the trace of `create_speaker` and `load_default_speaker` arguments. -/
structure ResolveResult where
  speaker : Option Speaker
  source : String
  createSpeakerCalls : List String
  loadSpeakerCalls : List String
deriving DecidableEq, Repr

/-- Condition of tts.py line 125: `if voice_file and os.path.exists(voice_file)`. -/
abbrev cloneTriggered (env : Env) (voice_file : Option String) : Prop :=
  pyTruthy voice_file = true ∧ env.fileExists (voice_file.getD ("")) = true

/-- The identifier chosen at tts.py lines 138-147: the provided `speaker_id`
when truthy, else the class default. -/
def determinedId (speaker_id : Option String) : String :=
  if pyTruthy speaker_id = true then speaker_id.getD ("") else TTSHandler.DEFAULT_VOICE

/-- Steps 2-3 of speaker resolution (tts.py lines 137-164): pick an identifier
and attempt `load_default_speaker` on it, with the source's (unreachable)
safety branch for a falsy identifier. `createCalls` carries the trace of the
cloning step so the whole resolution's trace is returned. -/
def resolveById (env : Env) (speaker_id : Option String)
    (createCalls : List String) : ResolveResult :=
  let fid := determinedId speaker_id
  let src := if pyTruthy speaker_id = true then "Provided ID (" ++ fid ++ ")"
             else "Class Default ID (" ++ fid ++ ")"
  if fid ≠ "" then
    match env.loadDefaultSpeaker fid with
    | some sp =>
        { speaker := some sp, source := src,
          createSpeakerCalls := createCalls, loadSpeakerCalls := [fid] }
    | none =>
        { speaker := none, source := "Failed Load (" ++ fid ++ ")",
          createSpeakerCalls := createCalls, loadSpeakerCalls := [fid] }
  else
    { speaker := none, source := src,
      createSpeakerCalls := createCalls, loadSpeakerCalls := [] }

/-- Speaker resolution (tts.py lines 119-164).  Step 1 clones from
`voice_file` when it is truthy and exists; on cloning success the identifier
path is skipped; on cloning failure (`create_speaker` raising) or when the
clone step is not triggered, resolution proceeds to the identifier path. -/
def resolveSpeaker (env : Env) (speaker_id voice_file : Option String) :
    ResolveResult :=
  if cloneTriggered env voice_file then
    match env.createSpeaker (voice_file.getD ("")) with
    | some sp =>
        { speaker := some sp,
          source := "Cloned File (" ++ basename (voice_file.getD ("")) ++ ")",
          createSpeakerCalls := [voice_file.getD ("")], loadSpeakerCalls := [] }
    | none => resolveById env speaker_id [voice_file.getD ("")]
  else
    resolveById env speaker_id []

/-- Result of one `speak` call: the returned boolean, the resolved speaker
profile (if resolution got one), the `speaker_source` string, the traces of
engine calls, and the output file written (`none` when no file was saved). -/
structure SpeakResult where
  ret : Bool
  resolvedSpeaker : Option Speaker
  speakerSource : String
  createSpeakerCalls : List String
  loadSpeakerCalls : List String
  savedFile : Option String
deriving DecidableEq, Repr

/-- Early-return failure result (tts.py lines 95-117): no engine call was
made and no file written; the `speaker_source` local still holds its initial
value. -/
def SpeakResult.abort : SpeakResult :=
  { ret := false, resolvedSpeaker := none, speakerSource := "Unknown",
    createSpeakerCalls := [], loadSpeakerCalls := [], savedFile := none }

/-- Failure condition of the directory-creation step (tts.py lines 110-117):
the dirname is truthy, does not exist, and `os.makedirs` raises. -/
abbrev mkdirFails (env : Env) (output_file : String) : Prop :=
  dirname output_file ≠ "" ∧ env.fileExists (dirname output_file) = false ∧
    env.makedirsOk (dirname output_file) = false

/-- Steps 4-7 of `speak` (tts.py lines 167-187): abort if resolution got no
profile, else generate and save, returning `true` only when both succeed. -/
def speakWith (env : Env) (text output_file : String) (r : ResolveResult) :
    SpeakResult :=
  match r with
  | ⟨none, src, cc, lc⟩ =>
      { ret := false, resolvedSpeaker := none, speakerSource := src,
        createSpeakerCalls := cc, loadSpeakerCalls := lc, savedFile := none }
  | ⟨some sp, src, cc, lc⟩ =>
      if env.generateOk text sp = true then
        if env.saveOk output_file = true then
          { ret := true, resolvedSpeaker := some sp, speakerSource := src,
            createSpeakerCalls := cc, loadSpeakerCalls := lc,
            savedFile := some output_file }
        else
          { ret := false, resolvedSpeaker := some sp, speakerSource := src,
            createSpeakerCalls := cc, loadSpeakerCalls := lc,
            savedFile := none }
      else
        { ret := false, resolvedSpeaker := some sp, speakerSource := src,
          createSpeakerCalls := cc, loadSpeakerCalls := lc, savedFile := none }

/-- `TTSHandler.speak` (tts.py lines 71-191): precondition checks, directory
creation, speaker resolution, then generation and save.  Exceptions from the
engine are the `none`/`false` answers of `env` and always yield
`ret := false`. -/
def speak (h : TTSHandler) (env : Env) (text output_file : String)
    (speaker_id voice_file : Option String) : SpeakResult :=
  if h.interface = false then SpeakResult.abort
  else if h.sampler_config = false then SpeakResult.abort
  else if text = "" then SpeakResult.abort
  else if output_file = "" then SpeakResult.abort
  else if mkdirFails env output_file then SpeakResult.abort
  else speakWith env text output_file (resolveSpeaker env speaker_id voice_file)

/-- Arguments of one `speak` call, as built by the main loop. -/
structure Request where
  text : String
  output_file : String
  speaker_id : Option String
  voice_file : Option String
deriving DecidableEq, Repr

/-- A sequence of `speak` calls on the same handler.  `speak` never writes
the handler's fields (tts.py never reassigns `self.interface` outside
`__init__`), so the handler is threaded through unchanged: the second
component shows no re-initialization ever happens between calls. -/
def speakSeq (h : TTSHandler) : List (Env × Request) → List SpeakResult × TTSHandler
  | [] => ([], h)
  | (e, r) :: rest =>
      let res := speak h e r.text r.output_file r.speaker_id r.voice_file
      let next := speakSeq h rest
      (res :: next.1, next.2)

/-- Configuration record of main.py (`config.json` contents after loading). -/
structure Config where
  speaker_id : Option String
  voice_file : Option String
deriving DecidableEq, Repr

/-- `default_config` of main.py line 29. -/
def default_config : Config := { speaker_id := none, voice_file := none }

/-- Outcome of `open` + `json.load` on the configuration file: a JSON decode
error, any other exception, or a parsed object.  For a parsed object each
field is `none` when the key is missing, `some none` when the key is JSON
null, and `some (some s)` when it is the string `s`. -/
inductive JsonLoadResult where
  | decodeError
  | otherError
  | ok (speaker_id : Option (Option String)) (voice_file : Option (Option String))
deriving DecidableEq, Repr

/-- External world seen by `load_config` (main.py lines 27-52). -/
structure ConfigEnv where
  configExists : Bool
  loadResult : JsonLoadResult
  fileExists : String → Bool

/-- `load_config` (main.py lines 27-52): missing file, decode error or any
other load error yield the defaults; otherwise missing keys default to
`None`, and a truthy `voice_file` that does not exist is nulled out. -/
def load_config (env : ConfigEnv) : Config :=
  if env.configExists = true then
    match env.loadResult with
    | .decodeError => default_config
    | .otherError => default_config
    | .ok sidField vfField =>
        let sid := sidField.getD none
        let vf0 := vfField.getD none
        let vf := if pyTruthy vf0 = true ∧ env.fileExists (vf0.getD ("")) = false
                  then none else vf0
        { speaker_id := sid, voice_file := vf }
  else default_config

/-- User-facing messages printed by the main loop and `play_audio`. -/
inductive UserMsg where
  | generateFailed
  | playFailed (path : String)
  | fileNotFound (path : String)
  | emptyPrompt
  | exiting
deriving DecidableEq, Repr

/-- External world seen by `play_audio` (main.py lines 54-67). -/
structure PlayEnv where
  fileExists : String → Bool
  playsoundOk : String → Bool

/-- Result of `play_audio`: the `playsound` invocations made and the
user-facing messages printed. -/
structure PlayResult where
  playsoundCalls : List String
  printed : List UserMsg
deriving DecidableEq, Repr

/-- `play_audio` (main.py lines 54-67): plays the file when it exists,
printing an error message when `playsound` raises or the file is missing;
it never raises. -/
def play_audio (penv : PlayEnv) (file_path : String) : PlayResult :=
  if penv.fileExists file_path = true then
    if penv.playsoundOk file_path = true then
      { playsoundCalls := [file_path], printed := [] }
    else
      { playsoundCalls := [file_path], printed := [UserMsg.playFailed file_path] }
  else
    { playsoundCalls := [], printed := [UserMsg.fileNotFound file_path] }

/-- `CACHE_DIR` of main.py line 13. -/
def CACHE_DIR : String := "cache"

/-- Input consumed by one iteration of the main loop: a line from stdin, or
a keyboard interrupt raised during the turn. -/
inductive LoopInput where
  | line (s : String)
  | interrupt
deriving DecidableEq, Repr

/-- Whether the iteration breaks out of the loop or continues. -/
inductive LoopStep where
  | brk
  | cont
deriving DecidableEq, Repr

/-- Observable behaviour of one main-loop iteration: loop control, the
`speak` requests issued, the output files actually written, the `play_audio`
invocations, the nested `playsound` invocations, and the messages printed. -/
structure IterResult where
  step : LoopStep
  speakCalls : List Request
  files : List String
  playAudioCalls : List String
  playsoundCalls : List String
  printed : List UserMsg
deriving DecidableEq, Repr

/-- One iteration of the main loop (main.py lines 96-131): exit keywords
break; a blank line re-prompts; otherwise the text is synthesized to a
timestamp-named file in the cache directory and played back on success,
with a user-facing message on generation failure. `ts` is the formatted
timestamp `now.strftime` produced this iteration. -/
def mainIter (h : TTSHandler) (cfg : Config) (env : Env) (penv : PlayEnv)
    (ts : String) (inp : LoopInput) : IterResult :=
  match inp with
  | .interrupt =>
      { step := .brk, speakCalls := [], files := [], playAudioCalls := [],
        playsoundCalls := [], printed := [UserMsg.exiting] }
  | .line t =>
      if pyLower t = "quit" ∨ pyLower t = "exit" then
        { step := .brk, speakCalls := [], files := [], playAudioCalls := [],
          playsoundCalls := [], printed := [] }
      else if t = "" then
        { step := .cont, speakCalls := [], files := [], playAudioCalls := [],
          playsoundCalls := [], printed := [UserMsg.emptyPrompt] }
      else
        let output_path := CACHE_DIR ++ "/" ++ ts ++ ".wav"
        let res := speak h env t output_path cfg.speaker_id cfg.voice_file
        if res.ret = true then
          let p := play_audio penv output_path
          { step := .cont,
            speakCalls := [⟨t, output_path, cfg.speaker_id, cfg.voice_file⟩],
            files := res.savedFile.toList, playAudioCalls := [output_path],
            playsoundCalls := p.playsoundCalls, printed := p.printed }
        else
          { step := .cont,
            speakCalls := [⟨t, output_path, cfg.speaker_id, cfg.voice_file⟩],
            files := res.savedFile.toList, playAudioCalls := [],
            playsoundCalls := [], printed := [UserMsg.generateFailed] }

/-! Concrete handlers and environments used to exercise the model. -/

/-- Handler whose initialization succeeded. -/
def hReady : TTSHandler := TTSHandler.init true

/-- Handler whose initialization raised. -/
def hFailed : TTSHandler := TTSHandler.init false

/-- Environment in which every engine call succeeds. -/
def envAllOk : Env :=
  { fileExists := fun _ => true, makedirsOk := fun _ => true,
    createSpeaker := fun _ => some { token := 1 },
    loadDefaultSpeaker := fun _ => some { token := 2 },
    generateOk := fun _ _ => true, saveOk := fun _ => true }

/-- Environment in which `create_speaker` raises. -/
def envCloneFails : Env := { envAllOk with createSpeaker := fun _ => none }

/-- Environment in which `load_default_speaker` raises. -/
def envLoadFails : Env := { envAllOk with loadDefaultSpeaker := fun _ => none }

/-- Environment in which cloning and identifier loading both raise. -/
def envBothFail : Env :=
  { envAllOk with createSpeaker := fun _ => none,
                  loadDefaultSpeaker := fun _ => none }

/-- Environment in which no path exists on disk. -/
def envNoFile : Env := { envAllOk with fileExists := fun _ => false }

/-- Playback environment in which every call succeeds. -/
def penvAllOk : PlayEnv :=
  { fileExists := fun _ => true, playsoundOk := fun _ => true }

/-- Configuration-file environment: config.json parses with `voice_file`
set to the empty string, a path that never exists. -/
def cfgEnvEmptyPath : ConfigEnv :=
  { configExists := true,
    loadResult := JsonLoadResult.ok none (some (some (""))),
    fileExists := fun _ => false }

/-- Configuration-file environment with a nonempty nonexistent `voice_file`. -/
def cfgEnvMissingVoice : ConfigEnv :=
  { configExists := true,
    loadResult := JsonLoadResult.ok none (some (some ("no-such.wav"))),
    fileExists := fun _ => false }

/-- Configuration-file environment with malformed JSON. -/
def cfgEnvBadJson : ConfigEnv :=
  { configExists := true, loadResult := JsonLoadResult.decodeError,
    fileExists := fun _ => false }

/-- Configuration-file environment with no config.json at all. -/
def cfgEnvMissingFile : ConfigEnv :=
  { configExists := false, loadResult := JsonLoadResult.ok none none,
    fileExists := fun _ => false }

/-! Helper lemmas about the embedding, shared by several claims. -/

/-- The identifier chosen by the identifier path is never falsy: a truthy
provided `speaker_id` is nonempty, and the class default is nonempty. -/
lemma determinedId_ne_empty (sid : Option String) : determinedId sid ≠ "" := by
  unfold determinedId
  by_cases h : pyTruthy sid = true
  · rw [if_pos h]
    cases sid with
    | none => simp [pyTruthy] at h
    | some s => simpa [pyTruthy] using h
  · rw [if_neg h]
    decide

/-- Spec of the identifier path: it attempts exactly the determined
identifier, returns whatever `load_default_speaker` answered for it, and
preserves the cloning trace. -/
lemma resolveById_spec (env : Env) (sid : Option String) (cc : List String) :
    (resolveById env sid cc).loadSpeakerCalls = [determinedId sid] ∧
    (resolveById env sid cc).speaker = env.loadDefaultSpeaker (determinedId sid) ∧
    (resolveById env sid cc).createSpeakerCalls = cc := by
  unfold resolveById
  rw [if_pos (determinedId_ne_empty sid)]
  cases h : env.loadDefaultSpeaker (determinedId sid) <;> simp [h]

/-- Case analysis on the resolution block: cloning succeeded, cloning was
attempted and failed, or cloning was not triggered at all. -/
lemma resolveSpeaker_eq_cases (env : Env) (sid vf : Option String) :
    (cloneTriggered env vf ∧ ∃ sp, env.createSpeaker (vf.getD ("")) = some sp ∧
        resolveSpeaker env sid vf =
          { speaker := some sp,
            source := "Cloned File (" ++ basename (vf.getD ("")) ++ ")",
            createSpeakerCalls := [vf.getD ("")], loadSpeakerCalls := [] }) ∨
    (cloneTriggered env vf ∧ env.createSpeaker (vf.getD ("")) = none ∧
        resolveSpeaker env sid vf = resolveById env sid [vf.getD ("")]) ∨
    (¬ cloneTriggered env vf ∧
        resolveSpeaker env sid vf = resolveById env sid []) := by
  by_cases hct : cloneTriggered env vf
  · cases hcs : env.createSpeaker (vf.getD ("")) with
    | some sp =>
        exact Or.inl ⟨hct, sp, rfl, by unfold resolveSpeaker; rw [if_pos hct, hcs]⟩
    | none =>
        exact Or.inr (Or.inl ⟨hct, rfl, by unfold resolveSpeaker; rw [if_pos hct, hcs]⟩)
  · exact Or.inr (Or.inr ⟨hct, by unfold resolveSpeaker; rw [if_neg hct]⟩)

/-- If resolution recorded a `load_default_speaker` call on `i`, then the
resolved profile is exactly what that call answered. -/
lemma resolveSpeaker_speaker_of_loadCalls (env : Env) (sid vf : Option String)
    (i : String) (hl : (resolveSpeaker env sid vf).loadSpeakerCalls = [i]) :
    (resolveSpeaker env sid vf).speaker = env.loadDefaultSpeaker i := by
  rcases resolveSpeaker_eq_cases env sid vf with
    ⟨hct, sp, hcs, heq⟩ | ⟨hct, hcs, heq⟩ | ⟨hct, heq⟩
  · rw [heq] at hl
    simp at hl
  · rw [heq] at hl ⊢
    have h1 := resolveById_spec env sid [vf.getD ("")]
    rw [h1.1] at hl
    simp at hl
    rw [h1.2.1, hl]
  · rw [heq] at hl ⊢
    have h1 := resolveById_spec env sid []
    rw [h1.1] at hl
    simp at hl
    rw [h1.2.1, hl]

/-- The generation-and-save step preserves the resolution fields, and a
resolution failure makes it fail with no file written. -/
lemma speakWith_fields (env : Env) (t o : String) (r : ResolveResult) :
    (speakWith env t o r).resolvedSpeaker = r.speaker ∧
    (speakWith env t o r).speakerSource = r.source ∧
    (speakWith env t o r).createSpeakerCalls = r.createSpeakerCalls ∧
    (speakWith env t o r).loadSpeakerCalls = r.loadSpeakerCalls ∧
    (r.speaker = none →
      (speakWith env t o r).ret = false ∧ (speakWith env t o r).savedFile = none) := by
  rcases r with ⟨osp, src, cc, lc⟩
  cases osp <;> simp [speakWith] <;> split_ifs <;> simp

/-- The generation-and-save step returns `true` exactly when a profile was
resolved, generation succeeded and saving succeeded. -/
lemma speakWith_ret_iff (env : Env) (t o : String) (r : ResolveResult) :
    (speakWith env t o r).ret = true ↔
      ∃ sp, r.speaker = some sp ∧ env.generateOk t sp = true ∧
        env.saveOk o = true := by
  rcases r with ⟨osp, src, cc, lc⟩
  cases osp <;> simp [speakWith] <;> split_ifs <;> simp_all

/-- When the generation-and-save step returns `true` it saved the file at
the requested path. -/
lemma speakWith_saved_of_ret (env : Env) (t o : String) (r : ResolveResult)
    (hret : (speakWith env t o r).ret = true) :
    (speakWith env t o r).savedFile = some o := by
  rcases r with ⟨osp, src, cc, lc⟩
  cases osp <;> simp [speakWith] at hret ⊢ <;> split_ifs at hret ⊢ <;> simp_all

/-- After the precondition and directory steps succeed, the fields of the
`speak` result that describe speaker resolution agree with the resolution
block, and a resolution failure makes the call fail with no file written. -/
lemma speak_fields (h : TTSHandler) (env : Env) (t o : String)
    (sid vf : Option String)
    (hi : h.interface = true) (hs : h.sampler_config = true)
    (ht : t ≠ "") (ho : o ≠ "") (hd : ¬ mkdirFails env o) :
    (speak h env t o sid vf).resolvedSpeaker = (resolveSpeaker env sid vf).speaker ∧
    (speak h env t o sid vf).speakerSource = (resolveSpeaker env sid vf).source ∧
    (speak h env t o sid vf).createSpeakerCalls =
      (resolveSpeaker env sid vf).createSpeakerCalls ∧
    (speak h env t o sid vf).loadSpeakerCalls =
      (resolveSpeaker env sid vf).loadSpeakerCalls ∧
    ((resolveSpeaker env sid vf).speaker = none →
      (speak h env t o sid vf).ret = false ∧ (speak h env t o sid vf).savedFile = none) := by
  unfold speak
  rw [if_neg (by simp [hi]), if_neg (by simp [hs]), if_neg ht, if_neg ho, if_neg hd]
  exact speakWith_fields env t o (resolveSpeaker env sid vf)

/-- A `speak` call on an uninitialized handler fails and writes no file. -/
lemma speak_uninit_aux (h : TTSHandler) (env : Env) (t o : String)
    (sid vf : Option String) (hi : h.interface = false) :
    (speak h env t o sid vf).ret = false ∧ (speak h env t o sid vf).savedFile = none := by
  unfold speak
  rw [if_pos hi]
  exact ⟨rfl, rfl⟩

/-- A `speak` call with empty text fails and writes no file. -/
lemma speak_empty_text_aux (h : TTSHandler) (env : Env) (o : String)
    (sid vf : Option String) :
    (speak h env ("") o sid vf).ret = false ∧
    (speak h env ("") o sid vf).savedFile = none := by
  unfold speak
  split_ifs <;> simp_all [SpeakResult.abort]

/-- A `speak` call whose speaker resolution yields no profile fails and
writes no file, whether or not the preconditions were even reached. -/
lemma speak_no_speaker_aux (h : TTSHandler) (env : Env) (t o : String)
    (sid vf : Option String)
    (hsp : (resolveSpeaker env sid vf).speaker = none) :
    (speak h env t o sid vf).ret = false ∧ (speak h env t o sid vf).savedFile = none := by
  unfold speak
  split_ifs <;>
    first
      | exact ⟨rfl, rfl⟩
      | exact (speakWith_fields env t o (resolveSpeaker env sid vf)).2.2.2.2 hsp

/-- When `speak` returns `true` the output file was saved at the requested
path. -/
lemma speak_saved_of_ret (h : TTSHandler) (env : Env) (t o : String)
    (sid vf : Option String) (hret : (speak h env t o sid vf).ret = true) :
    (speak h env t o sid vf).savedFile = some o := by
  unfold speak at hret ⊢
  split_ifs at hret ⊢ <;>
    first
      | exact speakWith_saved_of_ret env t o (resolveSpeaker env sid vf) hret
      | simp_all [SpeakResult.abort]

/-- When `speak` returns `false` no output file was saved. -/
lemma speakWith_saved_of_ret_false (env : Env) (t o : String) (r : ResolveResult)
    (hret : (speakWith env t o r).ret = false) :
    (speakWith env t o r).savedFile = none := by
  rcases r with ⟨osp, src, cc, lc⟩
  cases osp <;> simp [speakWith] at hret ⊢ <;> split_ifs at hret ⊢ <;> simp_all

/-- When `speak` returns `false` no output file was saved. -/
lemma speak_saved_of_ret_false (h : TTSHandler) (env : Env) (t o : String)
    (sid vf : Option String) (hret : (speak h env t o sid vf).ret = false) :
    (speak h env t o sid vf).savedFile = none := by
  unfold speak at hret ⊢
  split_ifs at hret ⊢ <;>
    first
      | exact speakWith_saved_of_ret_false env t o (resolveSpeaker env sid vf) hret
      | rfl

/-- The directory step cannot fail when the directory already exists
(in particular, when the output path has no directory component this is
about `env.fileExists ""`, which a concrete environment can fix). -/
lemma not_mkdirFails_of_fileExists (env : Env) (o : String)
    (hex : env.fileExists (dirname o) = true) : ¬ mkdirFails env o :=
  fun hmk => by simp [hmk.2.1] at hex

/-- A playback failure (missing file or `playsound` raising) prints a
user-facing message. -/
lemma play_audio_failure_prints (penv : PlayEnv) (fp : String)
    (hf : penv.fileExists fp = false ∨ penv.playsoundOk fp = false) :
    (play_audio penv fp).printed ≠ [] := by
  unfold play_audio
  split_ifs <;> simp_all

/-- On an accepted (non-exit, non-blank) line the loop iteration reduces to
a single synthesis followed, on success, by a single playback. -/
lemma mainIter_accepted_eq (h : TTSHandler) (cfg : Config) (env : Env)
    (penv : PlayEnv) (ts t : String)
    (hq : ¬ (pyLower t = "quit" ∨ pyLower t = "exit")) (hne : ¬ t = "") :
    mainIter h cfg env penv ts (LoopInput.line t) =
      if (speak h env t (CACHE_DIR ++ "/" ++ ts ++ ".wav")
            cfg.speaker_id cfg.voice_file).ret = true then
        { step := LoopStep.cont,
          speakCalls := [{ text := t, output_file := CACHE_DIR ++ "/" ++ ts ++ ".wav",
                           speaker_id := cfg.speaker_id, voice_file := cfg.voice_file }],
          files := (speak h env t (CACHE_DIR ++ "/" ++ ts ++ ".wav")
                      cfg.speaker_id cfg.voice_file).savedFile.toList,
          playAudioCalls := [CACHE_DIR ++ "/" ++ ts ++ ".wav"],
          playsoundCalls := (play_audio penv (CACHE_DIR ++ "/" ++ ts ++ ".wav")).playsoundCalls,
          printed := (play_audio penv (CACHE_DIR ++ "/" ++ ts ++ ".wav")).printed }
      else
        { step := LoopStep.cont,
          speakCalls := [{ text := t, output_file := CACHE_DIR ++ "/" ++ ts ++ ".wav",
                           speaker_id := cfg.speaker_id, voice_file := cfg.voice_file }],
          files := (speak h env t (CACHE_DIR ++ "/" ++ ts ++ ".wav")
                      cfg.speaker_id cfg.voice_file).savedFile.toList,
          playAudioCalls := [], playsoundCalls := [],
          printed := [UserMsg.generateFailed] } := by
  show (mainIter h cfg env penv ts (LoopInput.line t) = _)
  simp only [mainIter]
  rw [if_neg hq, if_neg hne]

/-! Claim theorems. -/

/-- Claim C1: in a `speak` call whose `voice_file` is a truthy path to an
existing file and whose `create_speaker` call succeeds, the resolved
speaker profile is the cloned one, the speaker source records the cloned
file, and `load_default_speaker` is never invoked in that call. -/
theorem speak_clone_success_uses_clone
    (h : TTSHandler) (env : Env) (t o p : String) (sid : Option String)
    (sp : Speaker)
    (hi : h.interface = true) (hs : h.sampler_config = true)
    (ht : t ≠ "") (ho : o ≠ "") (hd : ¬ mkdirFails env o)
    (hp : p ≠ "") (hex : env.fileExists p = true)
    (hcs : env.createSpeaker p = some sp) :
    (speak h env t o sid (some p)).resolvedSpeaker = some sp ∧
    (speak h env t o sid (some p)).loadSpeakerCalls = [] ∧
    (speak h env t o sid (some p)).speakerSource =
      "Cloned File (" ++ basename p ++ ")" := by
  have hct : cloneTriggered env (some p) :=
    ⟨by simp [pyTruthy, hp], by simpa using hex⟩
  have hres : resolveSpeaker env sid (some p) =
      { speaker := some sp, source := "Cloned File (" ++ basename p ++ ")",
        createSpeakerCalls := [p], loadSpeakerCalls := [] } := by
    unfold resolveSpeaker
    rw [if_pos hct]
    simp [hcs]
  have hf := speak_fields h env t o sid (some p) hi hs ht ho hd
  rw [hres] at hf
  exact ⟨hf.1, hf.2.2.2.1, hf.2.1⟩

/-- Witness for C1 at a concrete ready handler and succeeding engine. -/
theorem speak_clone_success_uses_clone_witness :
    (speak hReady envAllOk ("hi") ("out.wav") none (some ("v.wav"))).resolvedSpeaker =
      some { token := 1 } ∧
    (speak hReady envAllOk ("hi") ("out.wav") none (some ("v.wav"))).loadSpeakerCalls = [] ∧
    (speak hReady envAllOk ("hi") ("out.wav") none (some ("v.wav"))).speakerSource =
      "Cloned File (" ++ basename ("v.wav") ++ ")" :=
  speak_clone_success_uses_clone hReady envAllOk ("hi") ("out.wav") ("v.wav") none
    { token := 1 } rfl rfl (by decide) (by decide)
    (not_mkdirFails_of_fileExists envAllOk ("out.wav") rfl) (by decide) rfl rfl

/-- Claim C2: when resolution reaches the identifier-loading step with
determined identifier `i` and `load_default_speaker` raises for `i`, the
whole resolution fails and `speak` returns `false` with no file written;
exactly the one identifier `i` was attempted in that call. -/
theorem speak_id_load_failure_no_fallback
    (h : TTSHandler) (env : Env) (t o : String) (sid vf : Option String)
    (i : String)
    (hi : h.interface = true) (hs : h.sampler_config = true)
    (ht : t ≠ "") (ho : o ≠ "") (hd : ¬ mkdirFails env o)
    (hreach : (resolveSpeaker env sid vf).loadSpeakerCalls = [i])
    (hfail : env.loadDefaultSpeaker i = none) :
    (speak h env t o sid vf).ret = false ∧
    (speak h env t o sid vf).loadSpeakerCalls = [i] ∧
    (speak h env t o sid vf).savedFile = none := by
  have hsp : (resolveSpeaker env sid vf).speaker = none := by
    rw [resolveSpeaker_speaker_of_loadCalls env sid vf i hreach, hfail]
  have hf := speak_fields h env t o sid vf hi hs ht ho hd
  have hfl := hf.2.2.2.2 hsp
  exact ⟨hfl.1, by rw [hf.2.2.2.1, hreach], hfl.2⟩

/-- Witness for C2: loading the class default fails and the call fails
having attempted only that identifier. -/
theorem speak_id_load_failure_no_fallback_witness :
    (speak hReady envLoadFails ("hi") ("out.wav") none none).ret = false ∧
    (speak hReady envLoadFails ("hi") ("out.wav") none none).loadSpeakerCalls =
      [TTSHandler.DEFAULT_VOICE] ∧
    (speak hReady envLoadFails ("hi") ("out.wav") none none).savedFile = none :=
  speak_id_load_failure_no_fallback hReady envLoadFails ("hi") ("out.wav") none none
    TTSHandler.DEFAULT_VOICE rfl rfl (by decide) (by decide)
    (not_mkdirFails_of_fileExists envLoadFails ("out.wav") rfl) (by decide) rfl

/-- Claim C3: when `voice_file` is a truthy existing path but
`create_speaker` raises, resolution falls through to the identifier step
exactly once: `create_speaker` is called exactly once and exactly one
identifier load is attempted. -/
theorem speak_clone_failure_single_fallthrough
    (h : TTSHandler) (env : Env) (t o p : String) (sid : Option String)
    (hi : h.interface = true) (hs : h.sampler_config = true)
    (ht : t ≠ "") (ho : o ≠ "") (hd : ¬ mkdirFails env o)
    (hp : p ≠ "") (hex : env.fileExists p = true)
    (hc : env.createSpeaker p = none) :
    (speak h env t o sid (some p)).createSpeakerCalls = [p] ∧
    (speak h env t o sid (some p)).loadSpeakerCalls = [determinedId sid] := by
  have hct : cloneTriggered env (some p) :=
    ⟨by simp [pyTruthy, hp], by simpa using hex⟩
  have hres : resolveSpeaker env sid (some p) = resolveById env sid [p] := by
    unfold resolveSpeaker
    rw [if_pos hct]
    simp [hc]
  have h1 := resolveById_spec env sid [p]
  have hf := speak_fields h env t o sid (some p) hi hs ht ho hd
  constructor
  · rw [hf.2.2.1, hres, h1.2.2]
  · rw [hf.2.2.2.1, hres, h1.1]

/-- Witness for C3: cloning raises once, then the class default is the one
identifier attempted. -/
theorem speak_clone_failure_single_fallthrough_witness :
    (speak hReady envCloneFails ("hi") ("out.wav") none (some ("v.wav"))).createSpeakerCalls =
      [("v.wav")] ∧
    (speak hReady envCloneFails ("hi") ("out.wav") none (some ("v.wav"))).loadSpeakerCalls =
      [determinedId none] :=
  speak_clone_failure_single_fallthrough hReady envCloneFails ("hi") ("out.wav")
    ("v.wav") none rfl rfl (by decide) (by decide)
    (not_mkdirFails_of_fileExists envCloneFails ("out.wav") rfl) (by decide) rfl rfl

/-- Claim C4: when the clone step is not triggered (no `voice_file`, or a
falsy or nonexistent one) and no `speaker_id` is provided, the identifier
passed to `load_default_speaker` is exactly the class default
`EN-FEMALE-1-NEUTRAL`. -/
theorem speak_no_inputs_uses_class_default
    (h : TTSHandler) (env : Env) (t o : String) (vf : Option String)
    (hi : h.interface = true) (hs : h.sampler_config = true)
    (ht : t ≠ "") (ho : o ≠ "") (hd : ¬ mkdirFails env o)
    (hclone : ¬ cloneTriggered env vf) :
    (speak h env t o none vf).loadSpeakerCalls = [TTSHandler.DEFAULT_VOICE] := by
  have hres : resolveSpeaker env none vf = resolveById env none [] := by
    unfold resolveSpeaker
    rw [if_neg hclone]
  have h1 := resolveById_spec env none []
  have hf := speak_fields h env t o none vf hi hs ht ho hd
  rw [hf.2.2.2.1, hres, h1.1]
  rfl

/-- Witness for C4: no voice file and no speaker id loads the class
default. -/
theorem speak_no_inputs_uses_class_default_witness :
    (speak hReady envAllOk ("hi") ("out.wav") none none).loadSpeakerCalls =
      [TTSHandler.DEFAULT_VOICE] :=
  speak_no_inputs_uses_class_default hReady envAllOk ("hi") ("out.wav") none
    rfl rfl (by decide) (by decide)
    (not_mkdirFails_of_fileExists envAllOk ("out.wav") rfl) (by decide)

/-- Claim C5: `speak` returns `false` and writes no output file when the
text is empty, when the interface is uninitialized, or when speaker
resolution produces no profile (both cloning and identifier loading
failing); with an uninitialized handler every call of a whole sequence of
`speak` calls fails and the handler is never re-initialized between
calls. -/
theorem speak_failure_modes :
    (∀ (h : TTSHandler) (env : Env) (o : String) (sid vf : Option String),
        (speak h env ("") o sid vf).ret = false ∧
        (speak h env ("") o sid vf).savedFile = none) ∧
    (∀ (h : TTSHandler) (env : Env) (t o : String) (sid vf : Option String),
        h.interface = false →
        (speak h env t o sid vf).ret = false ∧
        (speak h env t o sid vf).savedFile = none) ∧
    (∀ (h : TTSHandler) (env : Env) (t o : String) (sid vf : Option String),
        (resolveSpeaker env sid vf).speaker = none →
        (speak h env t o sid vf).ret = false ∧
        (speak h env t o sid vf).savedFile = none) ∧
    (∀ (h : TTSHandler) (reqs : List (Env × Request)),
        h.interface = false →
        (∀ res ∈ (speakSeq h reqs).1,
            res.ret = false ∧ res.savedFile = none) ∧
        (speakSeq h reqs).2 = h) := by
  refine ⟨fun h env o sid vf => speak_empty_text_aux h env o sid vf,
          fun h env t o sid vf hi => speak_uninit_aux h env t o sid vf hi,
          fun h env t o sid vf hsp => speak_no_speaker_aux h env t o sid vf hsp,
          fun h reqs hi => ?_⟩
  induction reqs with
  | nil =>
      refine ⟨?_, rfl⟩
      intro res hres
      simp [speakSeq] at hres
  | cons a rest ih =>
      obtain ⟨e, r⟩ := a
      refine ⟨?_, ?_⟩
      · intro res hres
        simp only [speakSeq] at hres
        rcases List.mem_cons.mp hres with h1 | h1
        · rw [h1]
          exact speak_uninit_aux h e r.text r.output_file r.speaker_id r.voice_file hi
        · exact ih.1 res h1
      · simp only [speakSeq]
        exact ih.2

/-- Witness for C5 at concrete handlers and environments: empty text,
failed initialization, doubly-failed resolution, and a sequence on the
failed handler. -/
theorem speak_failure_modes_witness :
    ((speak hReady envAllOk ("") ("out.wav") none none).ret = false) ∧
    ((speak hFailed envAllOk ("hi") ("out.wav") none none).ret = false) ∧
    ((speak hReady envBothFail ("hi") ("out.wav") none (some ("v.wav"))).ret = false) ∧
    ((speakSeq hFailed
        [(envAllOk, { text := "hi", output_file := "out.wav",
                      speaker_id := none, voice_file := none })]).2 = hFailed) :=
  ⟨(speak_failure_modes.1 hReady envAllOk ("out.wav") none none).1,
   (speak_failure_modes.2.1 hFailed envAllOk ("hi") ("out.wav") none none rfl).1,
   (speak_failure_modes.2.2.1 hReady envBothFail ("hi") ("out.wav") none
      (some ("v.wav")) (by decide)).1,
   (speak_failure_modes.2.2.2 hFailed
      [(envAllOk, { text := "hi", output_file := "out.wav",
                    speaker_id := none, voice_file := none })] rfl).2⟩

/-- Claim C6: `speak` is a total function of its inputs and the
environment's answers (the caller never observes a raised fault), and it
returns `true` exactly when every step succeeds: interface and sampler
ready, text and output path nonempty, directory step succeeding, a speaker
profile resolved, generation succeeding and saving succeeding; any engine
exception (a `none`/`false` environment answer on the path taken) yields
`false`. -/
theorem speak_ret_true_iff (h : TTSHandler) (env : Env) (t o : String)
    (sid vf : Option String) :
    (speak h env t o sid vf).ret = true ↔
      h.interface = true ∧ h.sampler_config = true ∧ t ≠ "" ∧ o ≠ "" ∧
      ¬ mkdirFails env o ∧
      ∃ sp, (resolveSpeaker env sid vf).speaker = some sp ∧
        env.generateOk t sp = true ∧ env.saveOk o = true := by
  unfold speak
  split_ifs with h1 h2 h3 h4 h5
  · simp [SpeakResult.abort, h1]
  · simp [SpeakResult.abort, h2]
  · simp [SpeakResult.abort, h3]
  · simp [SpeakResult.abort, h4]
  · simp [SpeakResult.abort, h5]
  · rw [speakWith_ret_iff]
    have hi : h.interface = true := by simpa using h1
    have hs : h.sampler_config = true := by simpa using h2
    simp [hi, hs, h3, h4, h5]

/-- Claim C10: a non-`None` `voice_file` naming a nonexistent path makes no
cloning attempt — `create_speaker` is not called — and the whole call
behaves exactly as if `voice_file` had been `None`. -/
theorem speak_nonexistent_voice_file_ignored
    (h : TTSHandler) (env : Env) (t o p : String) (sid : Option String)
    (hnex : env.fileExists p = false) :
    speak h env t o sid (some p) = speak h env t o sid none ∧
    (speak h env t o sid (some p)).createSpeakerCalls = [] := by
  have hct : ¬ cloneTriggered env (some p) := by
    intro hc
    have h2 := hc.2
    simp [hnex] at h2
  have hctn : ¬ cloneTriggered env none := by
    simp [cloneTriggered, pyTruthy]
  have hres : resolveSpeaker env sid (some p) = resolveSpeaker env sid none := by
    unfold resolveSpeaker
    rw [if_neg hct, if_neg hctn]
  have hcc : (resolveSpeaker env sid (some p)).createSpeakerCalls = [] := by
    unfold resolveSpeaker
    rw [if_neg hct]
    exact (resolveById_spec env sid []).2.2
  constructor
  · unfold speak
    rw [hres]
  · unfold speak
    split_ifs <;>
      first
        | rfl
        | exact ((speakWith_fields env t o (resolveSpeaker env sid (some p))).2.2.1).trans hcc

/-- Witness for C10: with no file existing, a provided voice file is
ignored and no cloning call is made. -/
theorem speak_nonexistent_voice_file_ignored_witness :
    speak hReady envNoFile ("hi") ("out.wav") none (some ("v.wav")) =
      speak hReady envNoFile ("hi") ("out.wav") none none ∧
    (speak hReady envNoFile ("hi") ("out.wav") none (some ("v.wav"))).createSpeakerCalls =
      [] :=
  speak_nonexistent_voice_file_ignored hReady envNoFile ("hi") ("out.wav")
    ("v.wav") none rfl

/-- Counterexample to C7 as stated: on an accepted line whose synthesis
fails (here the built-in speaker fails to load), zero output files are
generated and zero playback attempts are made — not exactly one of each. -/
theorem mainIter_failed_generation_no_playback :
    (mainIter hReady default_config envLoadFails penvAllOk
        ("2024-01-01_00-00-00") (LoopInput.line ("hello"))).playAudioCalls = [] ∧
    (mainIter hReady default_config envLoadFails penvAllOk
        ("2024-01-01_00-00-00") (LoopInput.line ("hello"))).files = [] ∧
    (mainIter hReady default_config envLoadFails penvAllOk
        ("2024-01-01_00-00-00") (LoopInput.line ("hello"))).step = LoopStep.cont := by
  decide

/-- Claim C7 (amended): for every accepted (non-blank, non-exit) input
line, exactly one synthesis request with a timestamp-named output path in
the cache directory is issued and the loop continues; when synthesis
succeeds exactly one file is written and exactly one playback attempt is
made on that path; when synthesis fails no playback is attempted and a
user-facing failure message is printed; a playback failure prints a
user-facing message.  In all cases the iteration never breaks the loop. -/
theorem mainIter_accepted_line_behaviour
    (h : TTSHandler) (cfg : Config) (env : Env) (penv : PlayEnv) (ts t : String)
    (hq : ¬ (pyLower t = "quit" ∨ pyLower t = "exit")) (hne : ¬ t = "") :
    (mainIter h cfg env penv ts (LoopInput.line t)).step = LoopStep.cont ∧
    (mainIter h cfg env penv ts (LoopInput.line t)).speakCalls =
      [{ text := t, output_file := CACHE_DIR ++ "/" ++ ts ++ ".wav",
         speaker_id := cfg.speaker_id, voice_file := cfg.voice_file }] ∧
    ((speak h env t (CACHE_DIR ++ "/" ++ ts ++ ".wav")
        cfg.speaker_id cfg.voice_file).ret = true →
      (mainIter h cfg env penv ts (LoopInput.line t)).files =
        [CACHE_DIR ++ "/" ++ ts ++ ".wav"] ∧
      (mainIter h cfg env penv ts (LoopInput.line t)).playAudioCalls =
        [CACHE_DIR ++ "/" ++ ts ++ ".wav"]) ∧
    ((speak h env t (CACHE_DIR ++ "/" ++ ts ++ ".wav")
        cfg.speaker_id cfg.voice_file).ret = false →
      (mainIter h cfg env penv ts (LoopInput.line t)).files = [] ∧
      (mainIter h cfg env penv ts (LoopInput.line t)).playAudioCalls = [] ∧
      (mainIter h cfg env penv ts (LoopInput.line t)).printed =
        [UserMsg.generateFailed]) ∧
    ((speak h env t (CACHE_DIR ++ "/" ++ ts ++ ".wav")
        cfg.speaker_id cfg.voice_file).ret = true →
      (penv.fileExists (CACHE_DIR ++ "/" ++ ts ++ ".wav") = false ∨
       penv.playsoundOk (CACHE_DIR ++ "/" ++ ts ++ ".wav") = false) →
      (mainIter h cfg env penv ts (LoopInput.line t)).printed ≠ []) := by
  rw [mainIter_accepted_eq h cfg env penv ts t hq hne]
  by_cases hr : (speak h env t (CACHE_DIR ++ "/" ++ ts ++ ".wav")
      cfg.speaker_id cfg.voice_file).ret = true
  · rw [if_pos hr]
    refine ⟨rfl, rfl, fun _ => ⟨?_, rfl⟩, fun hf => absurd hr (by simp [hf]), ?_⟩
    · rw [speak_saved_of_ret h env t (CACHE_DIR ++ "/" ++ ts ++ ".wav")
        cfg.speaker_id cfg.voice_file hr]
      rfl
    · intro _ hf
      exact play_audio_failure_prints penv (CACHE_DIR ++ "/" ++ ts ++ ".wav") hf
  · rw [if_neg hr]
    have hr' : (speak h env t (CACHE_DIR ++ "/" ++ ts ++ ".wav")
        cfg.speaker_id cfg.voice_file).ret = false := by
      simpa using hr
    refine ⟨rfl, rfl, fun hc => absurd hc hr, fun _ => ⟨?_, rfl, rfl⟩,
            fun hc => absurd hc hr⟩
    rw [speak_saved_of_ret_false h env t (CACHE_DIR ++ "/" ++ ts ++ ".wav")
      cfg.speaker_id cfg.voice_file hr']
    rfl

/-- Witness for the amended C7: a successful turn continues the loop,
writes the timestamped file and plays it exactly once. -/
theorem mainIter_accepted_line_behaviour_witness :
    (mainIter hReady default_config envAllOk penvAllOk
        ("2024-01-01_00-00-00") (LoopInput.line ("hello"))).step = LoopStep.cont ∧
    (mainIter hReady default_config envAllOk penvAllOk
        ("2024-01-01_00-00-00") (LoopInput.line ("hello"))).files =
      [CACHE_DIR ++ "/" ++ ("2024-01-01_00-00-00") ++ ".wav"] ∧
    (mainIter hReady default_config envAllOk penvAllOk
        ("2024-01-01_00-00-00") (LoopInput.line ("hello"))).playAudioCalls =
      [CACHE_DIR ++ "/" ++ ("2024-01-01_00-00-00") ++ ".wav"] :=
  ⟨(mainIter_accepted_line_behaviour hReady default_config envAllOk penvAllOk
      ("2024-01-01_00-00-00") ("hello") (by decide) (by decide)).1,
   (mainIter_accepted_line_behaviour hReady default_config envAllOk penvAllOk
      ("2024-01-01_00-00-00") ("hello") (by decide) (by decide)).2.2.1 (by decide)⟩

/-- Counterexample to C8 as stated: a configuration whose `voice_file` is
the empty string — a path that does not exist — is not nulled out, because
the source guards the existence check behind Python truthiness. -/
theorem load_config_empty_voice_file_kept :
    cfgEnvEmptyPath.fileExists ("") = false ∧
    (load_config cfgEnvEmptyPath).voice_file = some ("") := by
  decide

/-- Claim C8 (amended): for every configuration file whose `voice_file`
field is set to a nonempty path that does not exist at load time,
`load_config` returns a configuration whose `voice_file` is `None`. -/
theorem load_config_nonexistent_voice_file_nulled
    (env : ConfigEnv) (sidF : Option (Option String)) (p : String)
    (hc : env.configExists = true)
    (hok : env.loadResult = JsonLoadResult.ok sidF (some (some p)))
    (hp : p ≠ "") (hnex : env.fileExists p = false) :
    (load_config env).voice_file = none := by
  unfold load_config
  rw [if_pos hc, hok]
  simp [pyTruthy, hp, hnex]

/-- Witness for the amended C8 at a concrete nonexistent nonempty path. -/
theorem load_config_nonexistent_voice_file_nulled_witness :
    (load_config cfgEnvMissingVoice).voice_file = none :=
  load_config_nonexistent_voice_file_nulled cfgEnvMissingVoice none
    ("no-such.wav") rfl rfl (by decide) rfl

/-- Claim C9: a missing configuration file, a JSON decode error, and any
other load error all make `load_config` return the default configuration
(`speaker_id = None`, `voice_file = None`); the function is total, so no
exception escapes. -/
theorem load_config_defaults_on_error (env : ConfigEnv) :
    (env.configExists = false → load_config env = default_config) ∧
    (env.loadResult = JsonLoadResult.decodeError →
        load_config env = default_config) ∧
    (env.loadResult = JsonLoadResult.otherError →
        load_config env = default_config) := by
  refine ⟨fun hm => ?_, fun hd => ?_, fun ho => ?_⟩
  · unfold load_config
    rw [if_neg (by simp [hm])]
  · by_cases hc : env.configExists = true
    · unfold load_config
      rw [if_pos hc, hd]
    · unfold load_config
      rw [if_neg hc]
  · by_cases hc : env.configExists = true
    · unfold load_config
      rw [if_pos hc, ho]
    · unfold load_config
      rw [if_neg hc]

/-- Witness for C9: malformed JSON and a missing file both yield the
default configuration. -/
theorem load_config_defaults_on_error_witness :
    load_config cfgEnvBadJson = default_config ∧
    load_config cfgEnvMissingFile = default_config :=
  ⟨(load_config_defaults_on_error cfgEnvBadJson).2.1 rfl,
   (load_config_defaults_on_error cfgEnvMissingFile).1 rfl⟩

end SimpleSpeak
